import Mathlib

/-! # ESP32 hydroponic dosing controller: `Global.h`

A shallow embedding of the global configuration and state declared in
`src/Global.h`: the GPIO pin assignment, the handler timing constants, the
boot values of the global variables, and the operations on them.

Conventions of the embedding:

* `unsigned long` values are `Nat` (the pulse counters wrap at `2 ^ 32`);
  `int` values are `Int`;
* a `float` variable holds a rational number (`ℚ`) and arithmetic on `float`
  values is exact rational arithmetic: rounding is not modelled. The literals
  of `Global.h` (`0.0`, `7.0`) are exactly representable, and the conversion of
  an `int` to `float` is modelled with its 24-bit significand (`intToFloat`);
* `Global.h` declares the functions of the firmware without their bodies. A
  function whose body is needed is modelled from the specification of the
  dosing core, and its documentation says so;
* the global variables form one record, `Globals`, and a function that writes
  globals maps a `Globals` to a `Globals`.
-/

namespace Hydroponic

/-! ## Pin assignment (`Global.h`, lines 5-21) -/

/-- DS18B20 temperature sensor pin. -/
def oneWireBus : Nat := 15
/-- Analog pin of the pH sensor (ADC1_CH7). -/
def phSensorPin : Nat := 35
/-- Analog pin of the TDS sensor (ADC1_CH6). -/
def tdsSensorPin : Nat := 34

/-- Flow meter of nutrient A. -/
def flowSensorA_Pin : Nat := 4
/-- Flow meter of nutrient B. -/
def flowSensorB_Pin : Nat := 18
/-- Flow meter of the pH UP solution. -/
def flowSensorPH_UP_Pin : Nat := 2
/-- Flow meter of the pH DOWN solution. -/
def flowSensorPH_DOWN_Pin : Nat := 19

/-- Pump relay of nutrient A. -/
def relayPumpA_Pin : Nat := 33
/-- Pump relay of nutrient B. -/
def relayPumpB_Pin : Nat := 26
/-- Pump relay of the pH UP solution. -/
def relayPumpPH_UP_Pin : Nat := 25
/-- Pump relay of the pH DOWN solution. -/
def relayPumpPH_DOWN_Pin : Nat := 27
/-- Relay of the water mixer pump. -/
def relayMixerPump_Pin : Nat := 14

/-- The three analog / one-wire sensor pins. -/
def sensorPins : List Nat := [oneWireBus, phSensorPin, tdsSensorPin]

/-- The four flow-meter pins, in the order A, B, PH_UP, PH_DOWN. -/
def flowSensorPins : List Nat :=
  [flowSensorA_Pin, flowSensorB_Pin, flowSensorPH_UP_Pin, flowSensorPH_DOWN_Pin]

/-- The five relay pins, in the order A, B, PH_UP, PH_DOWN, mixer. -/
def relayPins : List Nat :=
  [relayPumpA_Pin, relayPumpB_Pin, relayPumpPH_UP_Pin, relayPumpPH_DOWN_Pin,
   relayMixerPump_Pin]

/-- Every GPIO number that `Global.h` assigns to a peripheral. -/
def allPins : List Nat := sensorPins ++ flowSensorPins ++ relayPins

/-! ## Timing and recovery constants (`Global.h`, lines 23-34) -/

/-- Read sensors every second. -/
def SENSOR_READ_INTERVAL : Nat := 1000
/-- Update NTP time every 500 ms. -/
def NTP_UPDATE_INTERVAL : Nat := 500
/-- Check the mode every 30 seconds. -/
def MODE_CHECK_INTERVAL : Nat := 30000
/-- Sync the configuration every 60 seconds. -/
def CONFIG_SYNC_INTERVAL : Nat := 60000
/-- Send data every hour. -/
def DATA_SEND_INTERVAL : Nat := 3600000
/-- Run the fuzzy controller every minute. -/
def FUZZY_RUN_INTERVAL : Nat := 60000

/-- Health check every 30 seconds. -/
def LCD_HEALTH_CHECK_INTERVAL : Nat := 30000
/-- Try recovery every 5 seconds. -/
def RECOVERY_INTERVAL : Nat := 5000
/-- Maximum number of recovery attempts (an `int` in the source). -/
def MAX_RECOVERY_ATTEMPTS : Int := 3

/-! ## Global variables and their boot values (`Global.h`, lines 36-134) -/

/-- The global variables that `Global.h` defines, with an initialiser, and that
the dosing core reads and writes. -/
structure Globals where
  temperatureValue : ℚ
  temperatureSensorReady : Bool
  phValue : ℚ
  phVoltage : ℚ
  phSensorReady : Bool
  tdsValue : ℚ
  tdsVoltage : ℚ
  tdsSensorReady : Bool
  flowCountA : Nat
  flowCountB : Nat
  flowCountPH_UP : Nat
  flowCountPH_DOWN : Nat
  flowRateA : ℚ
  flowRateB : ℚ
  flowRatePH_UP : ℚ
  flowRatePH_DOWN : ℚ
  totalVolumeA : ℚ
  totalVolumeB : ℚ
  totalVolumePH_UP : ℚ
  totalVolumePH_DOWN : ℚ
  flowSensorsReady : Bool
  relayPumpA_State : Bool
  relayPumpB_State : Bool
  relayPumpPH_UP_State : Bool
  relayPumpPH_DOWN_State : Bool
  relayMixerPump_State : Bool
  relaysReady : Bool
  autoModeEnabled : Bool
  manualModeEnabled : Bool
  fuzzyProcessActive : Bool
  lastFuzzyExecution : Nat
  fuzzySystemReady : Bool
  firebaseReady : Bool
  streamSetup : Bool
  currentMode : String
  wifiInitialized : Bool
  triggerFuzzyExecution : Bool
  deriving DecidableEq

/-- The state right after the static initialisers of `Global.h` have run and
before any `init...` function is called. -/
def boot : Globals where
  temperatureValue := 0
  temperatureSensorReady := false
  phValue := 7
  phVoltage := 0
  phSensorReady := false
  tdsValue := 0
  tdsVoltage := 0
  tdsSensorReady := false
  flowCountA := 0
  flowCountB := 0
  flowCountPH_UP := 0
  flowCountPH_DOWN := 0
  flowRateA := 0
  flowRateB := 0
  flowRatePH_UP := 0
  flowRatePH_DOWN := 0
  totalVolumeA := 0
  totalVolumeB := 0
  totalVolumePH_UP := 0
  totalVolumePH_DOWN := 0
  flowSensorsReady := false
  relayPumpA_State := false
  relayPumpB_State := false
  relayPumpPH_UP_State := false
  relayPumpPH_DOWN_State := false
  relayMixerPump_State := false
  relaysReady := false
  autoModeEnabled := false
  manualModeEnabled := false
  fuzzyProcessActive := false
  lastFuzzyExecution := 0
  fuzzySystemReady := false
  firebaseReady := false
  streamSetup := false
  currentMode := "manual"
  wifiInitialized := false
  triggerFuzzyExecution := false

/-- The two setpoints that `Global.h` only declares (their definitions, and so
their boot values, are in other translation units): `setPPM`, the TDS setpoint
of auto mode, and `setpointManual`, the setpoint of manual mode. Both are
`float` variables. -/
structure Setpoints where
  setPPM : ℚ
  setpointManual : ℚ
  deriving DecidableEq

/-- The four flow channels. -/
inductive Channel where
  | A
  | B
  | PH_UP
  | PH_DOWN
  deriving DecidableEq, Repr

/-- The pulse counter of a channel. -/
def Globals.flowCount (g : Globals) : Channel → Nat
  | .A => g.flowCountA
  | .B => g.flowCountB
  | .PH_UP => g.flowCountPH_UP
  | .PH_DOWN => g.flowCountPH_DOWN

/-- The flow rate of a channel, in L/min. -/
def Globals.flowRate (g : Globals) : Channel → ℚ
  | .A => g.flowRateA
  | .B => g.flowRateB
  | .PH_UP => g.flowRatePH_UP
  | .PH_DOWN => g.flowRatePH_DOWN

/-- The accumulated volume of a channel. -/
def Globals.totalVolume (g : Globals) : Channel → ℚ
  | .A => g.totalVolumeA
  | .B => g.totalVolumeB
  | .PH_UP => g.totalVolumePH_UP
  | .PH_DOWN => g.totalVolumePH_DOWN

/-- The five relay state flags, in the order A, B, PH_UP, PH_DOWN, mixer. -/
def Globals.relayStates (g : Globals) : List Bool :=
  [g.relayPumpA_State, g.relayPumpB_State, g.relayPumpPH_UP_State,
   g.relayPumpPH_DOWN_State, g.relayMixerPump_State]

/-! ## Conversions between `int` and `float` -/

/-- The nearest natural number with a 24-bit significand, ties to the even
significand: the value of a non-negative `int` after conversion to `float`. -/
def roundSignificand (m : Nat) : Nat :=
  if m < 2 ^ 24 then m
  else
    let e := Nat.log 2 m - 23
    let q := m / 2 ^ e
    let r := m % 2 ^ e
    let half := 2 ^ (e - 1)
    if r < half then q * 2 ^ e
    else if half < r then (q + 1) * 2 ^ e
    else if q % 2 = 0 then q * 2 ^ e
    else (q + 1) * 2 ^ e

/-- Conversion of an `int` to `float` (round to nearest, ties to even). -/
def intToFloat (n : Int) : ℚ :=
  if n < 0 then -((roundSignificand n.natAbs : Nat) : ℚ)
  else ((roundSignificand n.natAbs : Nat) : ℚ)

/-- Conversion of a `float` to `int`, as at a call that passes a `float` for
an `int` parameter: the fractional part is discarded (truncation toward
zero). -/
def floatToInt (x : ℚ) : Int :=
  if 0 ≤ x then Int.floor x else Int.ceil x

/-! ## Volume integrator -/

/-- Modelled from the spec: the linguistic sets of the TDS error. -/
inductive Bucket where
  | NegativeBig
  | NegativeSmall
  | Zero
  | PositiveSmall
  | PositiveBig
  deriving DecidableEq, Repr

/-- Modelled from the spec: the breakpoints of one triangular membership
function. -/
structure Triangle where
  left : ℚ
  peak : ℚ
  right : ℚ

/-- Modelled from the spec: the degree of membership of `x` in a triangular
set, `0` up to `left`, rising to `1` at `peak`, falling to `0` at `right`. -/
def Triangle.membership (t : Triangle) (x : ℚ) : ℚ :=
  if x ≤ t.left then 0
  else if x ≤ t.peak then (x - t.left) / (t.peak - t.left)
  else if x < t.right then (t.right - x) / (t.right - t.peak)
  else 0

/-- Modelled from the spec: the part of the engine that the spec leaves open
and that lives in the missing `FUZZY.ino`: the breakpoints of the five sets,
the output strengths of the two dosing rules for concentrate A and B, the
maximum single-dose volume, and the `float` that `runFuzzy` returns for a
reading and a setpoint. `Global.h` declares that `runFuzzy` returns a `float`;
neither `Global.h` nor the spec says which one, so it is a parameter. -/
structure FuzzyConfig where
  negativeBig : Triangle
  negativeSmall : Triangle
  zero : Triangle
  positiveSmall : Triangle
  positiveBig : Triangle
  smallDoseA : ℚ
  smallDoseB : ℚ
  bigDoseA : ℚ
  bigDoseB : ℚ
  maxDose : ℚ
  returned : ℚ → Int → ℚ

/-- The membership function of a bucket. -/
def FuzzyConfig.set (cfg : FuzzyConfig) : Bucket → Triangle
  | .NegativeBig => cfg.negativeBig
  | .NegativeSmall => cfg.negativeSmall
  | .Zero => cfg.zero
  | .PositiveSmall => cfg.positiveSmall
  | .PositiveBig => cfg.positiveBig

/-- Modelled from the spec: the dosing targets of one control cycle, in mL. -/
structure DosingTarget where
  target_mL_A : ℚ
  target_mL_B : ℚ
  deriving DecidableEq

/-- Modelled from the spec: the rule table of the engine, which lives in the
missing `FUZZY.ino`. Positive error doses more; zero and negative error dose
none. -/
def ruleTable (cfg : FuzzyConfig) : Bucket → DosingTarget
  | .NegativeBig => ⟨0, 0⟩
  | .NegativeSmall => ⟨0, 0⟩
  | .Zero => ⟨0, 0⟩
  | .PositiveSmall => ⟨cfg.smallDoseA, cfg.smallDoseB⟩
  | .PositiveBig => ⟨cfg.bigDoseA, cfg.bigDoseB⟩

/-- All buckets, from the most negative to the most positive error. -/
def Bucket.all : List Bucket :=
  [.NegativeBig, .NegativeSmall, .Zero, .PositiveSmall, .PositiveBig]

/-- Modelled from the spec: fuzzification, the degree of membership of the
error in a bucket. -/
def fuzzify (cfg : FuzzyConfig) (error : ℚ) (b : Bucket) : ℚ :=
  (cfg.set b).membership error

/-- Modelled from the spec: defuzzification by weighted centroid over the rule
outputs, `(Σ μ_b * out_b) / (Σ μ_b)`, and `0` when no rule fires. -/
def centroid (μ : Bucket → ℚ) (out : Bucket → ℚ) : ℚ :=
  let total := (Bucket.all.map μ).sum
  if total = 0 then 0
  else (Bucket.all.map (fun b => μ b * out b)).sum / total

/-- Modelled from the spec: a crisp value is clamped to the range from `0`
(a dose is never negative) to the maximum single dose. -/
def clampDose (maxDose x : ℚ) : ℚ := max 0 (min x maxDose)

/-- Modelled from the spec: the dominant bucket, the first bucket of largest
membership. -/
def dominant (μ : Bucket → ℚ) : Bucket :=
  Bucket.all.foldl (fun best b => if μ best < μ b then b else best) .NegativeBig

/-- Modelled from the spec: `infer(currentPPM, targetPPM)`, whose body lives in
the missing `FUZZY.ino`. The error `targetPPM − currentPPM` is fuzzified, the
rule table is applied, each of the two outputs is defuzzified by weighted
centroid and clamped, and the dominant bucket is the category. -/
def infer (cfg : FuzzyConfig) (currentPPM targetPPM : ℚ) : DosingTarget × Bucket :=
  let error := targetPPM - currentPPM
  let μ := fuzzify cfg error
  (⟨clampDose cfg.maxDose (centroid μ (fun b => (ruleTable cfg b).target_mL_A)),
    clampDose cfg.maxDose (centroid μ (fun b => (ruleTable cfg b).target_mL_B))⟩,
   dominant μ)

/-- Modelled from the spec: the two dosing targets that the fuzzy engine
stores, read through `getTargetML_A` and `getTargetML_B`, which `Global.h`
declares; the variables themselves live in the missing `FUZZY.ino`. -/
structure FuzzyTargets where
  targetML_A : ℚ
  targetML_B : ℚ
  deriving DecidableEq

/-- Modelled from the spec: `float runFuzzy(float ppm, int setppm)`, declared
in `Global.h` with its body in the missing `FUZZY.ino`. It runs the inference
on the reading and the setpoint (an `int`, converted to `float` for the
subtraction) and stores the two dosing targets. The `float` it returns is not
determined by `Global.h` or by the spec: it is the value the configuration
gives for the two arguments. -/
def runFuzzy (cfg : FuzzyConfig) (ppm : ℚ) (setppm : Int) (_t : FuzzyTargets) :
    ℚ × FuzzyTargets :=
  let d := (infer cfg ppm (intToFloat setppm)).1
  (cfg.returned ppm setppm, ⟨d.target_mL_A, d.target_mL_B⟩)

/-! ## Setpoint access -/

/-- Modelled from the spec: `void setTdsSetpoint(int newSetpoint)`, declared in
`Global.h` with its body in the missing `FUZZY.ino`. It stores the new
setpoint in the `float` variable `setPPM`. -/
def setTdsSetpoint (newSetpoint : Int) (sp : Setpoints) : Setpoints :=
  { sp with setPPM := intToFloat newSetpoint }

/-- Modelled from the spec: `int getTdsSetpoint()`, declared in `Global.h` with
its body in the missing `FUZZY.ino`. It returns `setPPM` as an `int`. -/
def getTdsSetpoint (sp : Setpoints) : Int := floatToInt sp.setPPM

/-! ## Safety monitor -/

/-- Modelled from the spec: the reason for which a dosing job is aborted. -/
inductive AbortReason where
  | FlowTimeout
  | EmergencyStop
  deriving DecidableEq, Repr

/-- Modelled from the spec: the state of a dosing job. -/
inductive JobState where
  | Idle
  | Running
  | Completed
  | Aborted (reason : AbortReason)
  deriving DecidableEq, Repr

/-- Modelled from the spec: a dosing job, one bounded actuation of a single
pump toward a target volume. -/
structure DosingJob where
  pump : Channel
  target_mL : ℚ
  dispensed_mL : ℚ
  state : JobState
  started_at : Nat
  deriving DecidableEq

/-- Modelled from the spec: the state the safety monitor acts on, made of the
globals of `Global.h`, the emergency-stop flag and the dosing jobs. -/
structure System where
  globals : Globals
  emergency_stop : Bool
  jobs : List DosingJob
  deriving DecidableEq

/-- Modelled from the spec: `setRelayPumpA`, `setRelayPumpB`,
`setRelayPumpPH_UP`, `setRelayPumpPH_DOWN` and `setRelayMixerPump` are declared
in `Global.h` without a body; each records the commanded state of its relay. -/
def setRelayPumpA (state : Bool) (g : Globals) : Globals :=
  { g with relayPumpA_State := state }

/-- Modelled from the spec: `setRelayPumpB` records the commanded state of the
relay of pump B. -/
def setRelayPumpB (state : Bool) (g : Globals) : Globals :=
  { g with relayPumpB_State := state }

/-- Modelled from the spec: `setRelayPumpPH_UP` records the commanded state of
the relay of the pH UP pump. -/
def setRelayPumpPH_UP (state : Bool) (g : Globals) : Globals :=
  { g with relayPumpPH_UP_State := state }

/-- Modelled from the spec: `setRelayPumpPH_DOWN` records the commanded state
of the relay of the pH DOWN pump. -/
def setRelayPumpPH_DOWN (state : Bool) (g : Globals) : Globals :=
  { g with relayPumpPH_DOWN_State := state }

/-- Modelled from the spec: `setRelayMixerPump` records the commanded state of
the relay of the mixer pump. -/
def setRelayMixerPump (state : Bool) (g : Globals) : Globals :=
  { g with relayMixerPump_State := state }

/-- Modelled from the spec: `turnOffAllRelays`, declared in `Global.h` without
a body, switches each of the five relays off. -/
def turnOffAllRelays (g : Globals) : Globals :=
  setRelayMixerPump false (setRelayPumpPH_DOWN false (setRelayPumpPH_UP false
    (setRelayPumpB false (setRelayPumpA false g))))

/-- Modelled from the spec: a running job is aborted with reason
`EmergencyStop`; a job in any other state is left as it is. -/
def DosingJob.abort (j : DosingJob) : DosingJob :=
  match j.state with
  | .Running => { j with state := .Aborted .EmergencyStop }
  | _ => j

/-- Modelled from the spec: `emergencyStop`, declared in `Global.h` without a
body. It forces every relay off, sets the emergency-stop flag and aborts every
running dosing job, whatever its progress. -/
def emergencyStop (s : System) : System :=
  { globals := turnOffAllRelays s.globals
    emergency_stop := true
    jobs := s.jobs.map DosingJob.abort }

/-- Modelled from the spec: the recovery bookkeeping of the safety monitor,
the number of recovery attempts made and whether the device is declared
dead. -/
structure RecoveryState where
  recovery_attempts : Int
  dead : Bool
  deriving DecidableEq

/-- The recovery bookkeeping at boot: no attempt made, device not dead. -/
def RecoveryState.boot : RecoveryState := ⟨0, false⟩

/-- Modelled from the spec: one failed health check, handled by the recovery
functions that `Global.h` declares without a body (`attemptLcdRecovery`,
`handleLcdLoss`). While fewer than `MAX_RECOVERY_ATTEMPTS` attempts have been
made, one more recovery attempt is made and counted; `recovered` is its
outcome, and a success ends the episode and clears the count. Once the limit
is reached no further attempt is made and the device is declared dead. -/
def handleFailure (recovered : Bool) (r : RecoveryState) : RecoveryState :=
  if r.dead then r
  else if r.recovery_attempts < MAX_RECOVERY_ATTEMPTS then
    if recovered then ⟨0, false⟩ else ⟨r.recovery_attempts + 1, false⟩
  else ⟨r.recovery_attempts, true⟩

/-- Modelled from the spec: the recovery bookkeeping after a sequence of
failed health checks, given the outcome of the recovery attempt each one may
trigger. -/
def handleFailures (outcomes : List Bool) (r : RecoveryState) : RecoveryState :=
  outcomes.foldl (fun r recovered => handleFailure recovered r) r

/-- Modelled from the spec: the number of recovery attempts made while
handling a sequence of failed health checks. A failure triggers an attempt
unless the device is dead or the limit is reached. -/
def attemptsMade : List Bool → RecoveryState → Nat
  | [], _ => 0
  | recovered :: rest, r =>
    (if r.dead = false ∧ r.recovery_attempts < MAX_RECOVERY_ATTEMPTS then 1 else 0)
      + attemptsMade rest (handleFailure recovered r)

/-- The selector of the mode arbiter is well defined: exactly one of the two
mode flags is set, and it agrees with `currentMode`. -/
def Globals.modeWellDefined (g : Globals) : Prop :=
  (g.autoModeEnabled = true ∧ g.manualModeEnabled = false
      ∨ g.autoModeEnabled = false ∧ g.manualModeEnabled = true)
    ∧ (g.manualModeEnabled = true ↔ g.currentMode = "manual")

/-! ## Conversion lemmas -/

theorem roundSignificand_of_le (m : Nat) (h : m ≤ 2 ^ 24) : roundSignificand m = m := by
  unfold roundSignificand
  split
  · rfl
  · have hm : m = 2 ^ 24 := by omega
    subst hm
    have hlog : Nat.log 2 (2 ^ 24) = 24 := Nat.log_pow (by norm_num) 24
    simp only [hlog]
    norm_num

theorem intToFloat_of_natAbs_le (n : Int) (h : n.natAbs ≤ 2 ^ 24) :
    intToFloat n = (n : ℚ) := by
  unfold intToFloat
  rw [roundSignificand_of_le _ h]
  have key : ((n.natAbs : Nat) : ℚ) = (((n.natAbs : Nat) : Int) : ℚ) := by
    simp only [Int.cast_natCast]
  rw [key]
  split
  · next hn =>
    have : ((n.natAbs : Nat) : Int) = -n := by omega
    rw [this]; push_cast; ring
  · next hn =>
    have : ((n.natAbs : Nat) : Int) = n := by omega
    rw [this]

theorem floatToInt_intCast (n : Int) : floatToInt (n : ℚ) = n := by
  unfold floatToInt
  split <;> simp

/-! ## Boot state and constants -/

/-- C4: the tick cadence constants are `SENSOR_READ_INTERVAL = 1000`,
`MODE_CHECK_INTERVAL = 30000` and `FUZZY_RUN_INTERVAL = 60000` milliseconds,
and the three values are pairwise distinct. -/
theorem tick_cadence_constants :
    SENSOR_READ_INTERVAL = 1000 ∧ MODE_CHECK_INTERVAL = 30000
      ∧ FUZZY_RUN_INTERVAL = 60000
      ∧ SENSOR_READ_INTERVAL ≠ MODE_CHECK_INTERVAL
      ∧ SENSOR_READ_INTERVAL ≠ FUZZY_RUN_INTERVAL
      ∧ MODE_CHECK_INTERVAL ≠ FUZZY_RUN_INTERVAL := by
  decide

/-- C7: the three sensor pins, the four flow-meter pins and the five relay
pins of `Global.h` are twelve pairwise distinct GPIO numbers, so every flow
channel has a flow-meter pin and a pump-relay pin of its own and no two
peripherals share a pin. -/
theorem pins_pairwise_distinct :
    sensorPins = [15, 35, 34] ∧ flowSensorPins = [4, 18, 2, 19]
      ∧ relayPins = [33, 26, 25, 27, 14]
      ∧ allPins.length = 12 ∧ allPins.Nodup
      ∧ List.Pairwise (fun p q => p ≠ q) allPins := by
  decide

/-- C8: in the boot state every flow channel is in its reset state (pulse
count `0`, flow rate `0.0`, accumulated volume `0.0`) and the flow sensors are
marked not ready. -/
theorem boot_flow_channels_reset :
    (∀ c : Channel, boot.flowCount c = 0 ∧ boot.flowRate c = 0 ∧ boot.totalVolume c = 0)
      ∧ boot.flowSensorsReady = false := by
  refine ⟨fun c => ?_, rfl⟩
  cases c <;> exact ⟨rfl, rfl, rfl⟩

/-- C10: in the boot state all five relay state flags are `false` (OFF),
`relaysReady` is `false`, `fuzzyProcessActive` is `false` and the one-shot flag
`triggerFuzzyExecution` is `false`. -/
theorem boot_no_actuation :
    boot.relayPumpA_State = false ∧ boot.relayPumpB_State = false
      ∧ boot.relayPumpPH_UP_State = false ∧ boot.relayPumpPH_DOWN_State = false
      ∧ boot.relayMixerPump_State = false
      ∧ (∀ r ∈ boot.relayStates, r = false)
      ∧ boot.relaysReady = false ∧ boot.fuzzyProcessActive = false
      ∧ boot.triggerFuzzyExecution = false := by
  refine ⟨rfl, rfl, rfl, rfl, rfl, ?_, rfl, rfl, rfl⟩
  decide

/-- C6, as stated, fails: in the boot state the mode selector is not well
defined, since neither mode flag is set although `currentMode` is
`"manual"`. -/
theorem boot_mode_not_well_defined : ¬ boot.modeWellDefined := by
  unfold Globals.modeWellDefined
  decide

/-- C6, amended: in the boot state `autoModeEnabled` and `manualModeEnabled`
are both `false` (so at most one of them is true, not exactly one), and
`currentMode` is `"manual"`, one of the two mode names. -/
theorem boot_mode_flags :
    boot.autoModeEnabled = false ∧ boot.manualModeEnabled = false
      ∧ boot.currentMode = "manual"
      ∧ ¬ (boot.autoModeEnabled = true ∧ boot.manualModeEnabled = true)
      ∧ (boot.currentMode = "auto" ∨ boot.currentMode = "manual") := by
  decide

/-! ## Volume integrator -/

theorem turnOffAllRelays_idem (g : Globals) :
    turnOffAllRelays (turnOffAllRelays g) = turnOffAllRelays g := by
  cases g
  rfl

theorem DosingJob.abort_idem (j : DosingJob) : j.abort.abort = j.abort := by
  unfold DosingJob.abort
  cases h : j.state <;> simp [h]

/-- C3: from every system state, `emergencyStop` yields a state in which each
of the five relays (pump A, pump B, pH UP, pH DOWN, mixer) is OFF and the
emergency-stop flag is set, and it is idempotent: applying it twice gives the
same state as applying it once. -/
theorem emergencyStop_all_off_idempotent (s : System) :
    (emergencyStop s).globals.relayPumpA_State = false
      ∧ (emergencyStop s).globals.relayPumpB_State = false
      ∧ (emergencyStop s).globals.relayPumpPH_UP_State = false
      ∧ (emergencyStop s).globals.relayPumpPH_DOWN_State = false
      ∧ (emergencyStop s).globals.relayMixerPump_State = false
      ∧ (emergencyStop s).emergency_stop = true
      ∧ (∀ j ∈ (emergencyStop s).jobs, j.state ≠ JobState.Running)
      ∧ emergencyStop (emergencyStop s) = emergencyStop s := by
  refine ⟨rfl, rfl, rfl, rfl, rfl, rfl, ?_, ?_⟩
  · intro j hj
    simp only [emergencyStop, List.mem_map] at hj
    obtain ⟨j0, _, rfl⟩ := hj
    unfold DosingJob.abort
    cases h : j0.state <;> simp [h]
  · simp only [emergencyStop, turnOffAllRelays_idem, List.map_map]
    congr 1
    apply List.map_congr_left
    intro j _
    exact DosingJob.abort_idem j

/-! ## Bounded recovery -/

theorem handleFailure_inv (recovered : Bool) (r : RecoveryState)
    (h : 0 ≤ r.recovery_attempts ∧ r.recovery_attempts ≤ MAX_RECOVERY_ATTEMPTS
      ∧ (r.dead = true → r.recovery_attempts = MAX_RECOVERY_ATTEMPTS)) :
    0 ≤ (handleFailure recovered r).recovery_attempts
      ∧ (handleFailure recovered r).recovery_attempts ≤ MAX_RECOVERY_ATTEMPTS
      ∧ ((handleFailure recovered r).dead = true
          → (handleFailure recovered r).recovery_attempts = MAX_RECOVERY_ATTEMPTS) := by
  obtain ⟨h0, h1, h2⟩ := h
  unfold handleFailure
  unfold MAX_RECOVERY_ATTEMPTS at *
  split
  · exact ⟨h0, h1, h2⟩
  · split
    · next hlt =>
      cases recovered
      · simp only [Bool.false_eq_true, if_false]
        refine ⟨by omega, by omega, fun hd => ?_⟩
        simp at hd
      · simp
    · refine ⟨h0, h1, fun _ => ?_⟩
      simp only
      omega

theorem handleFailures_inv (outcomes : List Bool) (r : RecoveryState)
    (h : 0 ≤ r.recovery_attempts ∧ r.recovery_attempts ≤ MAX_RECOVERY_ATTEMPTS
      ∧ (r.dead = true → r.recovery_attempts = MAX_RECOVERY_ATTEMPTS)) :
    0 ≤ (handleFailures outcomes r).recovery_attempts
      ∧ (handleFailures outcomes r).recovery_attempts ≤ MAX_RECOVERY_ATTEMPTS
      ∧ ((handleFailures outcomes r).dead = true
          → (handleFailures outcomes r).recovery_attempts = MAX_RECOVERY_ATTEMPTS) := by
  induction outcomes generalizing r with
  | nil => exact h
  | cons o os ih => exact ih _ (handleFailure_inv o r h)

theorem attemptsMade_dead (outcomes : List Bool) (n : Int) :
    attemptsMade outcomes ⟨n, true⟩ = 0 := by
  induction outcomes with
  | nil => rfl
  | cons o os ih => simp [attemptsMade, handleFailure, ih]

theorem attemptsMade_at_limit (outcomes : List Bool) :
    attemptsMade outcomes ⟨MAX_RECOVERY_ATTEMPTS, false⟩ = 0 := by
  cases outcomes with
  | nil => rfl
  | cons o os => simp [attemptsMade, handleFailure, attemptsMade_dead]

theorem attemptsMade_failures (n : Nat) (k : Nat) (hk : (k : Int) ≤ MAX_RECOVERY_ATTEMPTS) :
    ((attemptsMade (List.replicate n false) ⟨k, false⟩ : Nat) : Int)
      ≤ MAX_RECOVERY_ATTEMPTS - k := by
  induction n generalizing k with
  | zero => simp [attemptsMade]; omega
  | succ n ih =>
    by_cases hlt : (k : Int) < MAX_RECOVERY_ATTEMPTS
    · have h1 := ih (k + 1) (by push_cast; omega)
      simp only [List.replicate_succ, attemptsMade, handleFailure, hlt]
      simp only [Bool.false_eq_true, if_false, and_self, if_true]
      push_cast at h1 ⊢
      omega
    · have hk2 : (k : Int) = MAX_RECOVERY_ATTEMPTS := by omega
      rw [hk2, attemptsMade_at_limit]
      simp

/-- C9: recovery is bounded by a positive finite limit.
`MAX_RECOVERY_ATTEMPTS` is `3`, which is positive, and the retry interval
`RECOVERY_INTERVAL` (5000 ms) is strictly shorter than the health-check
interval `LCD_HEALTH_CHECK_INTERVAL` (30000 ms). From the boot state, whatever
the outcomes of the recovery attempts, the attempt count stays between `0` and
`MAX_RECOVERY_ATTEMPTS` and the device is declared dead only at the limit; a
run of `n` failures makes at most `MAX_RECOVERY_ATTEMPTS` attempts, and the
device is dead once one more failure follows the last allowed attempt. -/
theorem recovery_bounded :
    MAX_RECOVERY_ATTEMPTS = 3 ∧ 0 < MAX_RECOVERY_ATTEMPTS
      ∧ RECOVERY_INTERVAL = 5000 ∧ LCD_HEALTH_CHECK_INTERVAL = 30000
      ∧ RECOVERY_INTERVAL < LCD_HEALTH_CHECK_INTERVAL
      ∧ (∀ outcomes : List Bool,
          0 ≤ (handleFailures outcomes RecoveryState.boot).recovery_attempts
            ∧ (handleFailures outcomes RecoveryState.boot).recovery_attempts
                ≤ MAX_RECOVERY_ATTEMPTS
            ∧ ((handleFailures outcomes RecoveryState.boot).dead = true
                → (handleFailures outcomes RecoveryState.boot).recovery_attempts
                    = MAX_RECOVERY_ATTEMPTS))
      ∧ (∀ n : Nat,
          ((attemptsMade (List.replicate n false) RecoveryState.boot : Nat) : Int)
            ≤ MAX_RECOVERY_ATTEMPTS)
      ∧ handleFailures (List.replicate 3 false) RecoveryState.boot = ⟨3, false⟩
      ∧ handleFailures (List.replicate 4 false) RecoveryState.boot = ⟨3, true⟩ := by
  refine ⟨rfl, by decide, rfl, rfl, by decide, ?_, ?_, by decide, by decide⟩
  · intro outcomes
    exact handleFailures_inv outcomes _ (by decide)
  · intro n
    have h := attemptsMade_failures n 0 (by decide)
    simpa [RecoveryState.boot] using h

/-! ## Setpoint access -/

theorem floatToInt_natAbs_le (x : ℚ) (b : Nat) (h : |x| ≤ b) : (floatToInt x).natAbs ≤ b := by
  have h1 := abs_le.mp h
  unfold floatToInt
  split
  · next h0 =>
    have hf0 : 0 ≤ Int.floor x := Int.floor_nonneg.mpr h0
    have hfb : Int.floor x ≤ (b : Int) := by
      have : ((Int.floor x : Int) : ℚ) ≤ ((b : Int) : ℚ) := by
        push_cast
        exact le_trans (Int.floor_le x) h1.2
      exact_mod_cast this
    omega
  · next h0 =>
    have hx : x < 0 := not_le.mp h0
    have hc0 : Int.ceil x ≤ 0 := Int.ceil_le.mpr (by simpa using hx.le)
    have hcb : -(b : Int) ≤ Int.ceil x := by
      have : ((-(b : Int) : Int) : ℚ) ≤ ((Int.ceil x : Int) : ℚ) := by
        push_cast
        exact le_trans h1.1 (Int.le_ceil x)
      exact_mod_cast this
    omega

theorem getTdsSetpoint_setTdsSetpoint (sp : Setpoints) (n : Int) (h : n.natAbs ≤ 2 ^ 24) :
    getTdsSetpoint (setTdsSetpoint n sp) = n := by
  simp only [getTdsSetpoint, setTdsSetpoint, intToFloat_of_natAbs_le n h, floatToInt_intCast]

theorem floatToInt_eq_self_iff (x : ℚ) : ((floatToInt x : Int) : ℚ) = x ↔ ∃ n : Int, x = n := by
  constructor
  · intro h
    exact ⟨floatToInt x, h.symm⟩
  · rintro ⟨n, rfl⟩
    rw [floatToInt_intCast]

theorem abs_sub_floatToInt_lt_one (x : ℚ) : |x - (floatToInt x : ℚ)| < 1 := by
  unfold floatToInt
  rw [abs_lt]
  split
  · have h1 := Int.floor_le x
    have h2 := Int.lt_floor_add_one x
    constructor <;> linarith
  · have h1 := Int.le_ceil x
    have h2 := Int.ceil_lt_add_one x
    constructor <;> linarith

/-- C5, as stated, fails: the setpoint update 800.5 is not carried without
loss. Passed to `setTdsSetpoint`, whose parameter is an `int`, it is stored as
800, and `getTdsSetpoint` returns 800, not 800.5. -/
theorem setpoint_fraction_lost :
    getTdsSetpoint (setTdsSetpoint (floatToInt (1601 / 2)) ⟨0, 0⟩) = 800
      ∧ ((getTdsSetpoint (setTdsSetpoint (floatToInt (1601 / 2)) ⟨0, 0⟩) : Int) : ℚ)
          ≠ 1601 / 2 := by
  have h : floatToInt (1601 / 2) = 800 := by
    unfold floatToInt
    rw [if_pos (by norm_num)]
    rw [Int.floor_eq_iff]
    constructor <;> norm_num
  rw [h, getTdsSetpoint_setTdsSetpoint _ _ (by decide)]
  constructor
  · rfl
  · norm_num

/-- C5, amended: the setpoint interface is integer-typed. An integer setpoint
of magnitude at most `2 ^ 24` is carried without loss: `setTdsSetpoint n`
followed by `getTdsSetpoint` returns `n`. A `float` setpoint update `ppm` of
magnitude at most `2 ^ 24` is truncated toward zero when it is passed to
`setTdsSetpoint`: `getTdsSetpoint` then returns the truncated value, which
differs from `ppm` by less than `1` and equals `ppm` exactly when `ppm` is
integral, and `runFuzzy`, whose setpoint parameter is an `int`, receives that
truncated value. -/
theorem setpoint_carried_as_int (sp : Setpoints) (ppm : ℚ) (h : |ppm| ≤ 2 ^ 24) :
    (∀ n : Int, n.natAbs ≤ 2 ^ 24 → getTdsSetpoint (setTdsSetpoint n sp) = n)
      ∧ getTdsSetpoint (setTdsSetpoint (floatToInt ppm) sp) = floatToInt ppm
      ∧ |ppm - ((getTdsSetpoint (setTdsSetpoint (floatToInt ppm) sp) : Int) : ℚ)| < 1
      ∧ (((getTdsSetpoint (setTdsSetpoint (floatToInt ppm) sp) : Int) : ℚ) = ppm
          ↔ ∃ n : Int, ppm = n)
      ∧ (∀ (cfg : FuzzyConfig) (reading : ℚ) (t : FuzzyTargets),
          runFuzzy cfg reading (getTdsSetpoint (setTdsSetpoint (floatToInt ppm) sp)) t
            = runFuzzy cfg reading (floatToInt ppm) t) := by
  have hb : (floatToInt ppm).natAbs ≤ 2 ^ 24 := by
    apply floatToInt_natAbs_le
    push_cast
    exact h
  have hrt := getTdsSetpoint_setTdsSetpoint sp (floatToInt ppm) hb
  refine ⟨fun n hn => getTdsSetpoint_setTdsSetpoint sp n hn, hrt, ?_, ?_, ?_⟩
  · rw [hrt]; exact abs_sub_floatToInt_lt_one ppm
  · rw [hrt]; exact floatToInt_eq_self_iff ppm
  · intro cfg reading t
    rw [hrt]

/-- C5, amended, at a concrete input: the setpoint update 800.5. -/
theorem setpoint_carried_as_int_witness :
    |(1601 / 2 : ℚ)| ≤ 2 ^ 24
      ∧ ((∀ n : Int, n.natAbs ≤ 2 ^ 24 → getTdsSetpoint (setTdsSetpoint n ⟨0, 0⟩) = n)
          ∧ getTdsSetpoint (setTdsSetpoint (floatToInt (1601 / 2)) ⟨0, 0⟩)
              = floatToInt (1601 / 2)
          ∧ |(1601 / 2 : ℚ)
                - ((getTdsSetpoint (setTdsSetpoint (floatToInt (1601 / 2)) ⟨0, 0⟩) : Int) : ℚ)|
              < 1
          ∧ (((getTdsSetpoint (setTdsSetpoint (floatToInt (1601 / 2)) ⟨0, 0⟩) : Int) : ℚ)
                = 1601 / 2
              ↔ ∃ n : Int, (1601 / 2 : ℚ) = n)
          ∧ (∀ (cfg : FuzzyConfig) (reading : ℚ) (t : FuzzyTargets),
              runFuzzy cfg reading
                  (getTdsSetpoint (setTdsSetpoint (floatToInt (1601 / 2)) ⟨0, 0⟩)) t
                = runFuzzy cfg reading (floatToInt (1601 / 2)) t)) :=
  ⟨by rw [abs_of_nonneg (by norm_num)]; norm_num,
    setpoint_carried_as_int ⟨0, 0⟩ (1601 / 2) (by rw [abs_of_nonneg (by norm_num)]; norm_num)⟩

end Hydroponic
